import Mathlib

/-!
Shallow embedding of `packages/router/src/statemanager/navigation_state_manager.ts`
(the `NavigationStateManager` class).

The manager is modelled as a record of its mutable fields (`ManagerState`).
Each handler of the class becomes a pure function from the incoming event,
an environment of injected collaborators (`Env`: the URL serializer, the
URL handling strategy merge, the `Location` path comparison, the platform
navigation current entry, and the configured URL update strategy) and the
current state, to the new state together with a list of emitted effects
(`Effect`): native `navigate`/`traverseTo` calls with their arguments,
cancellation of the pending transition promise, the interception claim,
the deferred URL commit, and notifications to non router listeners.

The `info` metadata passed to native navigation calls is dynamically typed
in the source: the regular navigate passes a `NavigationInfo` object while
the rollback calls in `cancel` pass the string literal `"rollback"`.
`NavInfoVal` models exactly the values this program produces; JS property
access on the string value yields `undefined`, modelled by the `...Prop`
accessors returning the falsy default on `rollbackStr`.

Mutable callback fields of the transition (`cancel`, `commitUrl`) are
modelled as `Bool` flags (`cancelBound`, `commitUrlBound`) on `Navigation`;
invoking an optional callback (`transition.cancel?.()`,
`transition.commitUrl?.()`) emits the corresponding effect exactly when the
flag is set. (`finish`/`cancel` are bound when the native layer invokes the
installed interception handler, outside the handlers modelled here;
`commitUrl` is bound synchronously by `handleNavigate`.)
-/

namespace NavModel

/-- Opaque parsed URL value (`UrlTree` in the source); only identity matters here. -/
structure UrlTree where
  val : Nat
deriving DecidableEq

instance : Inhabited UrlTree := ⟨⟨0⟩⟩

/-- Opaque router state tree (`RouterState` in the source). -/
structure RouterState where
  val : Nat
deriving DecidableEq

/-- Serializable state payload carried on history entries and navigations.
Modelled as an association list so that the object spread in `navigate`
(`\x7b...transition.extras.state\x7d`, which turns `undefined` into an empty
object) is expressible. -/
def Payload : Type := List (String × Nat)

instance : DecidableEq Payload := by
  unfold Payload
  infer_instance

/-- The object spread of an optional object: `undefined` becomes the empty object. -/
def spreadState (s : Option Payload) : Payload := s.getD []

/-- Native `NavigationHistoryEntry`: stable `key` per history slot, fresh `id`
per content change, plus URL string and saved state payload. -/
structure HistoryEntry where
  id : String
  key : String
  url : String
  state : Option Payload
deriving DecidableEq

/-- History mode of a native navigate call. -/
inductive HistoryMode where
  | push
  | replace
deriving DecidableEq

/-- The `after-transition` / `manual` behavior hints used for focus reset and scroll. -/
inductive FocusScrollBehavior where
  | afterTransition
  | manual
deriving DecidableEq

/-- Fields of `NavigationExtras` used by this class. -/
structure Extras where
  state : Option Payload
  replaceUrl : Bool
  skipLocationChange : Bool
deriving DecidableEq

/-- The in flight transition (`Navigation` in the source). `cancelBound` and
`commitUrlBound` model whether the optional `cancel` / `commitUrl` callbacks
are currently assigned. -/
structure Navigation where
  initialUrl : UrlTree
  finalUrl : Option UrlTree
  extras : Extras
  cancelBound : Bool
  commitUrlBound : Bool
deriving DecidableEq

/-- The `NavigationInfo` metadata interface declared at the top of the source file. -/
structure NavigationInfo where
  intercept : Bool
  focusReset : Option FocusScrollBehavior
  scroll : Option FocusScrollBehavior
  deferredCommit : Bool
  transition : Option Navigation
  rollback : Bool
deriving DecidableEq

/-- A runtime value passed as `info` on a native navigation call: either a
`NavigationInfo` object (the regular navigate) or the string literal
`"rollback"` (the rollback calls in `cancel`). -/
inductive NavInfoVal where
  | obj (i : NavigationInfo)
  | rollbackStr
deriving DecidableEq

/-- JS read of `info.intercept`; `undefined` (hence falsy) on the string value. -/
def NavInfoVal.interceptProp : NavInfoVal → Bool
  | NavInfoVal.obj i => i.intercept
  | NavInfoVal.rollbackStr => false

/-- JS read of `info.rollback`; `undefined` (hence falsy) on the string value. -/
def NavInfoVal.rollbackProp : NavInfoVal → Bool
  | NavInfoVal.obj i => i.rollback
  | NavInfoVal.rollbackStr => false

/-- JS read of `info.deferredCommit`; `undefined` (hence falsy) on the string value. -/
def NavInfoVal.deferredCommitProp : NavInfoVal → Bool
  | NavInfoVal.obj i => i.deferredCommit
  | NavInfoVal.rollbackStr => false

/-- JS read of `info.transition`; `undefined` on the string value. -/
def NavInfoVal.transitionProp : NavInfoVal → Option Navigation
  | NavInfoVal.obj i => i.transition
  | NavInfoVal.rollbackStr => none

/-- JS read of `info.focusReset`; `undefined` on the string value. -/
def NavInfoVal.focusResetProp : NavInfoVal → Option FocusScrollBehavior
  | NavInfoVal.obj i => i.focusReset
  | NavInfoVal.rollbackStr => none

/-- JS read of `info.scroll`; `undefined` on the string value. -/
def NavInfoVal.scrollProp : NavInfoVal → Option FocusScrollBehavior
  | NavInfoVal.obj i => i.scroll
  | NavInfoVal.rollbackStr => none

/-- The snapshot produced by `createStateMemento`. -/
structure StateMemento where
  rawUrlTree : UrlTree
  currentUrlTree : UrlTree
  routerState : RouterState
deriving DecidableEq

/-- The mutable fields of `NavigationStateManager`. `info` is the metadata
recorded from the most recent native navigate event. -/
structure ManagerState where
  currentUrlTree : UrlTree
  rawUrlTree : UrlTree
  routerState : RouterState
  activeHistoryEntry : HistoryEntry
  stateMemento : StateMemento
  info : Option NavInfoVal
deriving DecidableEq

/-- Values of the `urlUpdateStrategy` router configuration field. -/
inductive UrlUpdateStrategy where
  | deferred
  | eager
deriving DecidableEq

/-- Values of the `canceledNavigationResolution` router configuration field. -/
inductive CanceledNavigationResolution where
  | replace
  | computed
deriving DecidableEq

/-- Injected collaborators, read only from the point of view of this class:
the URL serializer, the URL handling strategy merge, the `Location` current
path comparison, the platform navigation current entry at the time a handler
runs, and the effective `urlUpdateStrategy` configuration. -/
structure Env where
  serialize : UrlTree → String
  merge : UrlTree → UrlTree → UrlTree
  isCurrentPathEqualTo : String → Bool
  currentEntry : HistoryEntry
  urlUpdateStrategy : UrlUpdateStrategy

/-- Observable operations performed by the handlers. -/
inductive Effect where
  | navigate (path : String) (state : Option Payload) (history : HistoryMode) (info : NavInfoVal)
  | traverseTo (key : String) (info : NavInfoVal)
  | cancelSignal
  | commitUrl
  | interceptClaim (focusReset : Option FocusScrollBehavior) (scroll : Option FocusScrollBehavior)
      (deferredCommit : Bool)
  | nonRouterNotify (url : String) (state : Option Payload)
deriving DecidableEq

/-- The metadata argument of a native navigation call effect, when the effect is one. -/
def Effect.navInfo : Effect → Option NavInfoVal
  | Effect.navigate _ _ _ i => some i
  | Effect.traverseTo _ i => some i
  | _ => none

/-- The path argument of a native navigate call effect, when the effect is one. -/
def Effect.pathOf : Effect → Option String
  | Effect.navigate p _ _ _ => some p
  | _ => none

/-- The history mode of a native navigate call effect, when the effect is one. -/
def Effect.historyOf : Effect → Option HistoryMode
  | Effect.navigate _ _ h _ => some h
  | _ => none

/-- Getter `getCurrentUrlTree`. -/
def getCurrentUrlTree (st : ManagerState) : UrlTree := st.currentUrlTree

/-- Getter `getRawUrlTree`. -/
def getRawUrlTree (st : ManagerState) : UrlTree := st.rawUrlTree

/-- Getter `getRouterState`. -/
def getRouterState (st : ManagerState) : RouterState := st.routerState

/-- Getter `restoredState`: the state payload of the native current entry. -/
def restoredState (env : Env) : Option Payload := env.currentEntry.state

/-- Private `createStateMemento`: snapshot of the three router owned fields. -/
def createStateMemento (st : ManagerState) : StateMemento :=
  { rawUrlTree := st.rawUrlTree
    currentUrlTree := st.currentUrlTree
    routerState := st.routerState }

/-- The `NavigationInfo` object constructed by the private `navigate` method. -/
def navigateInfo (transition : Navigation) (deferredCommit : Bool) : NavigationInfo :=
  { intercept := true
    focusReset := some FocusScrollBehavior.manual
    scroll := none
    deferredCommit := deferredCommit
    transition := some transition
    rollback := false }

/-- Private `navigate(rawUrl, transition, deferredCommit)`: serializes the URL,
spreads the extras state payload, picks `replace` only when the serialized
path equals the current location path and the transition requested
`replaceUrl`, and issues the native navigate call with the metadata object. -/
def navigateCall (env : Env) (rawUrl : UrlTree) (transition : Navigation)
    (deferredCommit : Bool) : Effect :=
  let path := env.serialize rawUrl
  let state := spreadState transition.extras.state
  let history :=
    if env.isCurrentPathEqualTo path && transition.extras.replaceUrl then HistoryMode.replace
    else HistoryMode.push
  Effect.navigate path (some state) history (NavInfoVal.obj (navigateInfo transition deferredCommit))

/-- Private `resetInternalState(navigation)`: restores `routerState` and
`currentUrlTree` from the memento, then recomputes `rawUrlTree` as the URL
handling strategy merge of the restored current URL tree with the
`navigation.finalUrl`, falling back to the previous `rawUrlTree` when the
navigation has none (the `??` in the source). -/
def resetInternalState (env : Env) (navigation : Navigation) (st : ManagerState) : ManagerState :=
  let routerState := st.stateMemento.routerState
  let currentUrlTree := st.stateMemento.currentUrlTree
  let rawUrlTree := env.merge currentUrlTree (navigation.finalUrl.getD st.rawUrlTree)
  { st with
    routerState := routerState
    currentUrlTree := currentUrlTree
    rawUrlTree := rawUrlTree }

/-- Private `cancel(transition, restoringFromCaughtError)`: invokes the pending
`transition.cancel` callback when bound, then compares the native current
entry with `activeHistoryEntry`: when the `id` differs and the `key` also
differs it issues `traverseTo(activeHistoryEntry.key)` tagged with the string
`"rollback"`; when the `id` differs but the `key` matches it restores the
internal state from the memento and issues a replace navigate to the
serialized restored raw URL carrying the saved payload of
`activeHistoryEntry`, tagged with the string `"rollback"`; when the `id`
matches it does nothing beyond the callback. -/
def cancel (env : Env) (transition : Navigation) (restoringFromCaughtError : Bool)
    (st : ManagerState) : ManagerState × List Effect :=
  let cancelEff := if transition.cancelBound then [Effect.cancelSignal] else []
  if env.currentEntry.id ≠ st.activeHistoryEntry.id then
    if env.currentEntry.key ≠ st.activeHistoryEntry.key then
      (st, cancelEff ++ [Effect.traverseTo st.activeHistoryEntry.key NavInfoVal.rollbackStr])
    else
      let st2 := resetInternalState env transition st
      (st2, cancelEff ++ [Effect.navigate (env.serialize st2.rawUrlTree)
        st.activeHistoryEntry.state HistoryMode.replace NavInfoVal.rollbackStr])
  else (st, cancelEff)

/-- The `NavigationCancellationCode` enum imported from the events module of
this repository (not under the sources given here); only `guardRejected` and
`noDataFromResolver` are inspected by the manager, the remaining variants are
the other documented codes. -/
inductive NavigationCancellationCode where
  | redirect
  | supersededByNewNavigation
  | aborted
  | guardRejected
  | noDataFromResolver
deriving DecidableEq

/-- The router lifecycle events dispatched on in `handleRouterEvent`. -/
inductive RouterEvent where
  | navigationStart
  | navigationSkipped
  | routesRecognized
  | beforeActivateRoutes
  | navigationCancel (code : NavigationCancellationCode)
  | navigationError
  | navigationEnd
deriving DecidableEq

/-- Method `handleRouterEvent(e, transition)`: the single entry point driven by the
transition pipeline. Mirrors the `instanceof` cascade of the source:
`NavigationStart` captures the memento; `NavigationSkipped` sets the raw URL
tree to the transition initial URL; `RoutesRecognized` (unless
`skipLocationChange`) issues the native navigate for the merge of the final
URL into the initial URL, deferring the commit exactly when the configured
`urlUpdateStrategy` is `deferred`; `BeforeActivateRoutes` invokes the optional
`transition.commitUrl` callback; `NavigationCancel` runs `cancel` only for
the `GuardRejected` and `NoDataFromResolver` codes; `NavigationError` runs
`cancel` in the restoring from caught error mode; `NavigationEnd` records the
native current entry as `activeHistoryEntry`. -/
def handleRouterEvent (env : Env) (e : RouterEvent) (transition : Navigation)
    (st : ManagerState) : ManagerState × List Effect :=
  match e with
  | RouterEvent.navigationStart => ({ st with stateMemento := createStateMemento st }, [])
  | RouterEvent.navigationSkipped => ({ st with rawUrlTree := transition.initialUrl }, [])
  | RouterEvent.routesRecognized =>
    if transition.extras.skipLocationChange then (st, [])
    else
      let rawUrl := env.merge (transition.finalUrl.getD default) transition.initialUrl
      (st, [navigateCall env rawUrl transition
        (env.urlUpdateStrategy == UrlUpdateStrategy.deferred)])
  | RouterEvent.beforeActivateRoutes =>
    (st, if transition.commitUrlBound then [Effect.commitUrl] else [])
  | RouterEvent.navigationCancel code =>
    if code = NavigationCancellationCode.guardRejected ∨
        code = NavigationCancellationCode.noDataFromResolver then
      cancel env transition false st
    else (st, [])
  | RouterEvent.navigationError => cancel env transition true st
  | RouterEvent.navigationEnd => ({ st with activeHistoryEntry := env.currentEntry }, [])

/-- A native navigate event as seen by `handleNavigate`. -/
structure NavigateEvent where
  canIntercept : Bool
  info : Option NavInfoVal
deriving DecidableEq

/-- Method `handleNavigate(event)`: records `event.info` into the `info` field, and
when the event can be intercepted and the metadata requests interception,
claims it with the metadata focus reset and scroll hints; when the metadata
requests a deferred commit it additionally asks for an after transition
commit and binds the `commitUrl` callback of the transition referenced by the
metadata. Returns the new state, the (possibly updated) transition referenced
by the metadata, and the bridge effects. -/
def handleNavigate (event : NavigateEvent) (st : ManagerState) :
    ManagerState × Option Navigation × List Effect :=
  let st2 := { st with info := event.info }
  match event.info with
  | some i =>
    if event.canIntercept && i.interceptProp then
      let t := i.transitionProp
      let t2 :=
        if i.deferredCommitProp then t.map (fun n => { n with commitUrlBound := true }) else t
      (st2, t2, [Effect.interceptClaim i.focusResetProp i.scrollProp i.deferredCommitProp])
    else (st2, i.transitionProp, [])
  | none => (st2, none, [])

/-- Method `handleCurrentEntryChange(event)`: when no metadata was recorded from the
preceding navigate event, notify the non router listeners (each listener
receives the URL and state payload of the native current entry, see
`registerNonRouterCurrentEntryChangeListener`); otherwise, when the recorded
metadata has a truthy `rollback` property, record the native current entry as
`activeHistoryEntry`. -/
def handleCurrentEntryChange (env : Env) (st : ManagerState) : ManagerState × List Effect :=
  match st.info with
  | none => (st, [Effect.nonRouterNotify env.currentEntry.url env.currentEntry.state])
  | some i =>
    if i.rollbackProp then ({ st with activeHistoryEntry := env.currentEntry }, [])
    else (st, [])

/-- The `ROUTER_CONFIGURATION` fields read by this class. -/
structure RouterConfiguration where
  canceledNavigationResolution : Option CanceledNavigationResolution
  urlUpdateStrategy : Option UrlUpdateStrategy
deriving DecidableEq

/-- Source expression `inject(ROUTER_CONFIGURATION, ...optional...) || ...` with the empty object fallback. -/
def effectiveOptions (options : Option RouterConfiguration) : RouterConfiguration :=
  options.getD { canceledNavigationResolution := none, urlUpdateStrategy := none }

/-- Source expression reading `canceledNavigationResolution` from the options with the `replace` fallback. -/
def effectiveCanceledNavigationResolution (options : Option RouterConfiguration) :
    CanceledNavigationResolution :=
  (effectiveOptions options).canceledNavigationResolution.getD CanceledNavigationResolution.replace

/-- Source expression reading `urlUpdateStrategy` from the options with the `deferred` fallback. -/
def effectiveUrlUpdateStrategy (options : Option RouterConfiguration) : UrlUpdateStrategy :=
  (effectiveOptions options).urlUpdateStrategy.getD UrlUpdateStrategy.deferred

/-- The two event listener registrations performed by the constructor, in order. -/
inductive ListenerRegistration where
  | navigateListener
  | currentEntryChangeListener
deriving DecidableEq

/-- The constructor body: throws (returns `Except.error`, registering no
listener) when the effective `canceledNavigationResolution` is not
`computed`; otherwise registers the `navigate` and `currententrychange`
listeners. -/
def construct (options : Option RouterConfiguration) : Except String (List ListenerRegistration) :=
  if effectiveCanceledNavigationResolution options ≠ CanceledNavigationResolution.computed then
    Except.error
      "Navigation API-based router only supports `computed` canceledNavigationResolution."
  else
    Except.ok [ListenerRegistration.navigateListener,
      ListenerRegistration.currentEntryChangeListener]

/-- The state reached after a cancellation in the same key branch and the two
native events its synthetic replace navigate produces: the navigate event
carrying the string `"rollback"` metadata, then the entry change event. -/
def postRollbackState (env env2 : Env) (t : Navigation) (st : ManagerState) (r ci : Bool) :
    ManagerState :=
  (handleCurrentEntryChange env2
    (handleNavigate { canIntercept := ci, info := some NavInfoVal.rollbackStr }
      (cancel env t r st).1).1).1

/-- Fixture: an inactive history entry in slot k0. -/
def entryK0 : HistoryEntry := { id := "e0", key := "k0", url := "/a", state := none }

/-- Fixture: a replaced in place entry in the same slot k0 with a fresh id. -/
def entryK0b : HistoryEntry := { id := "e1", key := "k0", url := "/b", state := none }

/-- Fixture: the entry the native side lands on after the rollback replace in slot k0. -/
def entryK0c : HistoryEntry := { id := "e9", key := "k0", url := "/a", state := none }

/-- Fixture: an entry in a different slot k1. -/
def entryK1 : HistoryEntry := { id := "e2", key := "k1", url := "/b", state := none }

/-- Fixture serializer. -/
def fixedSerialize : UrlTree → String := fun u => if u.val = 0 then "/a" else "/b"

/-- Fixture URL handling strategy merge, injective on the pairs used. -/
def fixedMerge : UrlTree → UrlTree → UrlTree := fun a b => UrlTree.mk (a.val + 100 * b.val)

/-- Fixture environment around a given native current entry. -/
def envWith (e : HistoryEntry) : Env :=
  { serialize := fixedSerialize
    merge := fixedMerge
    isCurrentPathEqualTo := fun _ => false
    currentEntry := e
    urlUpdateStrategy := UrlUpdateStrategy.deferred }

/-- Fixture memento. -/
def memento0 : StateMemento :=
  { rawUrlTree := ⟨1⟩, currentUrlTree := ⟨2⟩, routerState := ⟨5⟩ }

/-- Fixture manager state whose active entry sits in slot k0. -/
def st0 : ManagerState :=
  { currentUrlTree := ⟨3⟩
    rawUrlTree := ⟨4⟩
    routerState := ⟨6⟩
    activeHistoryEntry := entryK0
    stateMemento := memento0
    info := none }

/-- Fixture transition with a final URL and no bound callbacks. -/
def trans0 : Navigation :=
  { initialUrl := ⟨7⟩
    finalUrl := some ⟨8⟩
    extras := { state := none, replaceUrl := true, skipLocationChange := false }
    cancelBound := false
    commitUrlBound := false }

/-- Fixture manager state whose recorded metadata is the rollback string tag. -/
def stInfoRollback : ManagerState := { st0 with info := some NavInfoVal.rollbackStr }

/-- Whether an effect is a native traverseTo call. -/
def Effect.isTraverseTo : Effect → Bool
  | Effect.traverseTo _ _ => true
  | _ => false

/-- The result of `handleRouterEvent` on a RoutesRecognized event. -/
def recognizedResult (env : Env) (t : Navigation) (st : ManagerState) :
    ManagerState × List Effect :=
  handleRouterEvent env RouterEvent.routesRecognized t st

/-- The result of feeding the navigate event produced at RoutesRecognized under
the deferred URL update strategy back into the interception bridge. -/
def bridgeResult (env : Env) (t : Navigation) (st : ManagerState) :
    ManagerState × Option Navigation × List Effect :=
  handleNavigate { canIntercept := true, info := some (NavInfoVal.obj (navigateInfo t true)) }
    (recognizedResult env t st).1

/-- Statement: on RoutesRecognized without the skip location flag the manager
leaves its state unchanged and issues exactly one native navigate call, whose
path serializes the merge of the final URL into the initial URL and whose
history mode is replace exactly when that path equals the current location
path and the transition requested replaceUrl. -/
def RoutesRecognizedNavigateSpec (env : Env) (t : Navigation) (st : ManagerState)
    (fu : UrlTree) : Prop :=
  handleRouterEvent env RouterEvent.routesRecognized t st =
    (st, [navigateCall env (env.merge fu t.initialUrl) t
      (env.urlUpdateStrategy == UrlUpdateStrategy.deferred)]) ∧
  (∀ d : Bool, Effect.pathOf (navigateCall env (env.merge fu t.initialUrl) t d) =
    some (env.serialize (env.merge fu t.initialUrl))) ∧
  (∀ d : Bool,
    Effect.historyOf (navigateCall env (env.merge fu t.initialUrl) t d) =
        some HistoryMode.replace ↔
      env.isCurrentPathEqualTo (env.serialize (env.merge fu t.initialUrl)) = true ∧
        t.extras.replaceUrl = true)

/-- Statement: in the same key branch of `cancel` (current entry id differs
from the active entry id, key matches) the manager restores its internal
state through `resetInternalState` and issues a native replace navigate to
the serialized restored raw URL carrying the saved payload of the active
entry, tagged with the rollback string; no native traversal is issued. -/
def SameKeyCancelSpec (env : Env) (t : Navigation) (r : Bool) (st : ManagerState) : Prop :=
  cancel env t r st =
    (resetInternalState env t st,
      (if t.cancelBound then [Effect.cancelSignal] else []) ++
        [Effect.navigate (env.serialize (resetInternalState env t st).rawUrlTree)
          st.activeHistoryEntry.state HistoryMode.replace NavInfoVal.rollbackStr]) ∧
  ∀ k i, Effect.traverseTo k i ∉ (cancel env t r st).2

/-- Statement: after a same key cancellation followed by the two native events
of its synthetic replace navigate, the three getters read the memento values,
with the raw URL tree recomputed by the URL handling strategy merge of the
memento current URL tree with the transition final URL (falling back to the
raw URL tree held at cancellation time). -/
def SameKeyRollbackRestoreSpec (env env2 : Env) (t : Navigation) (st : ManagerState)
    (r ci : Bool) : Prop :=
  getRouterState (postRollbackState env env2 t st r ci) = st.stateMemento.routerState ∧
  getCurrentUrlTree (postRollbackState env env2 t st r ci) = st.stateMemento.currentUrlTree ∧
  getRawUrlTree (postRollbackState env env2 t st r ci) =
    env.merge st.stateMemento.currentUrlTree (t.finalUrl.getD st.rawUrlTree)

/-- Statement: the regular navigate call built by the private `navigate`
method carries the metadata object with `intercept = true`, while every
native call emitted by `cancel` carries the rollback string as metadata (or
is the transition cancel signal, which is no native call). -/
def CoreCallMetadataSpec (env : Env) (rawUrl : UrlTree) (t : Navigation) (d : Bool)
    (env2 : Env) (t2 : Navigation) (r : Bool) (st : ManagerState) : Prop :=
  Effect.navInfo (navigateCall env rawUrl t d) = some (NavInfoVal.obj (navigateInfo t d)) ∧
  (navigateInfo t d).intercept = true ∧
  ∀ e ∈ (cancel env2 t2 r st).2,
    Effect.navInfo e = none ∨ Effect.navInfo e = some NavInfoVal.rollbackStr

/-- Statement: under the deferred URL update strategy, the navigate call at
RoutesRecognized requests a deferred commit, no commit effect occurs at
RoutesRecognized or in the interception bridge, the bridge claims the
interception with an after transition commit and binds the `commitUrl`
callback on the transition, and the BeforeActivateRoutes event then triggers
the commit exactly once without changing manager state. -/
def DeferredCommitFlowSpec (env : Env) (t : Navigation) (st : ManagerState)
    (fu : UrlTree) : Prop :=
  (recognizedResult env t st).2 = [navigateCall env (env.merge fu t.initialUrl) t true] ∧
  (navigateInfo t true).deferredCommit = true ∧
  Effect.commitUrl ∉ (recognizedResult env t st).2 ∧
  Effect.commitUrl ∉ (bridgeResult env t st).2.2 ∧
  (bridgeResult env t st).2.2 =
    [Effect.interceptClaim (some FocusScrollBehavior.manual) none true] ∧
  (bridgeResult env t st).2.1 = some { t with commitUrlBound := true } ∧
  handleRouterEvent env RouterEvent.beforeActivateRoutes { t with commitUrlBound := true }
      (bridgeResult env t st).1 = ((bridgeResult env t st).1, [Effect.commitUrl])

/-- Helper: an element of the optional cancel signal prefix is the cancel signal. -/
theorem mem_cancelPrefix {b : Bool} {e : Effect}
    (he : e ∈ (if b then [Effect.cancelSignal] else [])) : e = Effect.cancelSignal := by
  cases b <;> simp_all

/-- Helper: the branch of `cancel` taken when the current entry id differs
from the active entry id and the key matches. -/
theorem cancel_same_key_eq (env : Env) (t : Navigation) (r : Bool) (st : ManagerState)
    (h1 : env.currentEntry.id ≠ st.activeHistoryEntry.id)
    (h2 : env.currentEntry.key = st.activeHistoryEntry.key) :
    cancel env t r st =
      (resetInternalState env t st,
        (if t.cancelBound then [Effect.cancelSignal] else []) ++
          [Effect.navigate (env.serialize (resetInternalState env t st).rawUrlTree)
            st.activeHistoryEntry.state HistoryMode.replace NavInfoVal.rollbackStr]) := by
  unfold cancel
  rw [if_pos h1, if_neg (by simp [h2])]

/-- Helper: the branch of `cancel` taken when both the current entry id and
key differ from the active entry. -/
theorem cancel_diff_key_eq (env : Env) (t : Navigation) (r : Bool) (st : ManagerState)
    (h1 : env.currentEntry.id ≠ st.activeHistoryEntry.id)
    (h2 : env.currentEntry.key ≠ st.activeHistoryEntry.key) :
    cancel env t r st =
      (st, (if t.cancelBound then [Effect.cancelSignal] else []) ++
        [Effect.traverseTo st.activeHistoryEntry.key NavInfoVal.rollbackStr]) := by
  unfold cancel
  rw [if_pos h1, if_pos h2]

/-- Helper: the branch of `cancel` taken when the current entry id equals the
active entry id. -/
theorem cancel_same_id_eq (env : Env) (t : Navigation) (r : Bool) (st : ManagerState)
    (h1 : env.currentEntry.id = st.activeHistoryEntry.id) :
    cancel env t r st = (st, if t.cancelBound then [Effect.cancelSignal] else []) := by
  unfold cancel
  rw [if_neg (by simp [h1])]

/-- Claim C1 counterexample: a concrete cancellation in which the current
native entry id differs from the active entry id while the key matches; the
cancel procedure issues no native traversal at all in that branch, refuting
the claim that it issues a traversal back to the active entry key. -/
theorem c1_counterexample :
    ((envWith entryK0b).currentEntry.id ≠ st0.activeHistoryEntry.id ∧
      (envWith entryK0b).currentEntry.key = st0.activeHistoryEntry.key) ∧
    ((cancel (envWith entryK0b) trans0 false st0).2.all fun e => !e.isTraverseTo) = true := by
  decide

/-- Claim C1 (amended): for every cancellation in which the current native
entry id differs from the active entry id but the key matches, the cancel
procedure restores router state from the memento via `resetInternalState` and
issues a native replace navigate to the serialized restored raw URL tagged
with the rollback string; it issues no native traversal in this branch. -/
theorem c1_same_key_cancel_replaces (env : Env) (t : Navigation) (r : Bool)
    (st : ManagerState)
    (h1 : env.currentEntry.id ≠ st.activeHistoryEntry.id)
    (h2 : env.currentEntry.key = st.activeHistoryEntry.key) :
    SameKeyCancelSpec env t r st := by
  have hmain := cancel_same_key_eq env t r st h1 h2
  refine ⟨hmain, ?_⟩
  intro k i hmem
  rw [hmain] at hmem
  rcases List.mem_append.mp hmem with h | h
  · exact absurd (mem_cancelPrefix h) (by simp)
  · simp at h

/-- Claim C1 witness: the amended branch behavior at a concrete replaced in
place entry. -/
theorem c1_same_key_cancel_replaces_witness :
    ((envWith entryK0b).currentEntry.id ≠ st0.activeHistoryEntry.id ∧
      (envWith entryK0b).currentEntry.key = st0.activeHistoryEntry.key) ∧
    SameKeyCancelSpec (envWith entryK0b) trans0 false st0 :=
  ⟨⟨by decide, by decide⟩,
    c1_same_key_cancel_replaces (envWith entryK0b) trans0 false st0 (by decide) (by decide)⟩

/-- Claim C2: for every transition cancelled after a same key native
navigation, once the rollback replace navigate and its entry change event
have been handled, the router state and current URL tree getters read the
memento values and the raw URL tree getter reads the URL handling strategy
merge of the memento current URL tree with the transition final URL, falling
back to the raw URL tree held at cancellation time when there is none. -/
theorem c2_same_key_rollback_restores (env env2 : Env) (t : Navigation) (st : ManagerState)
    (r ci : Bool)
    (h1 : env.currentEntry.id ≠ st.activeHistoryEntry.id)
    (h2 : env.currentEntry.key = st.activeHistoryEntry.key) :
    SameKeyRollbackRestoreSpec env env2 t st r ci := by
  have hmain := cancel_same_key_eq env t r st h1 h2
  have hpost : postRollbackState env env2 t st r ci =
      { resetInternalState env t st with info := some NavInfoVal.rollbackStr } := by
    unfold postRollbackState
    rw [hmain]
    simp [handleNavigate, handleCurrentEntryChange, NavInfoVal.interceptProp,
      NavInfoVal.rollbackProp, NavInfoVal.transitionProp]
  refine ⟨?_, ?_, ?_⟩ <;>
    simp [hpost, getRouterState, getCurrentUrlTree, getRawUrlTree, resetInternalState]

/-- Claim C2 witness: a concrete same key cancellation; the final conjunct
shows the restored raw URL tree is not the memento raw URL tree verbatim. -/
theorem c2_same_key_rollback_restores_witness :
    ((envWith entryK0b).currentEntry.id ≠ st0.activeHistoryEntry.id ∧
      (envWith entryK0b).currentEntry.key = st0.activeHistoryEntry.key) ∧
    SameKeyRollbackRestoreSpec (envWith entryK0b) (envWith entryK0c) trans0 st0 false true ∧
    getRawUrlTree (postRollbackState (envWith entryK0b) (envWith entryK0c) trans0 st0
      false true) ≠ st0.stateMemento.rawUrlTree :=
  ⟨⟨by decide, by decide⟩,
    c2_same_key_rollback_restores (envWith entryK0b) (envWith entryK0c) trans0 st0 false true
      (by decide) (by decide),
    by decide⟩

/-- Claim C3: on RoutesRecognized without the skip location flag exactly one
native navigate call is issued; its path is the serialization of the URL
handling strategy merge of the transition final URL into its initial URL, and
its history mode is replace exactly when the serialized path equals the
current location path and the transition requested replaceUrl. -/
theorem c3_routes_recognized_navigate (env : Env) (t : Navigation) (st : ManagerState)
    (fu : UrlTree)
    (hskip : t.extras.skipLocationChange = false)
    (hfu : t.finalUrl = some fu) :
    RoutesRecognizedNavigateSpec env t st fu := by
  refine ⟨?_, ?_, ?_⟩
  · simp [handleRouterEvent, hskip, hfu]
  · intro d
    rfl
  · intro d
    simp only [navigateCall, Effect.historyOf]
    cases h1 : env.isCurrentPathEqualTo (env.serialize (env.merge fu t.initialUrl)) <;>
      cases h2 : t.extras.replaceUrl <;> simp [h1, h2]

/-- Claim C3 witness: a transition from a differing path with replaceUrl
requested; the issued history mode is push despite the replace request. -/
theorem c3_routes_recognized_navigate_witness :
    trans0.extras.skipLocationChange = false ∧
    trans0.finalUrl = some ⟨8⟩ ∧
    RoutesRecognizedNavigateSpec (envWith entryK0) trans0 st0 ⟨8⟩ ∧
    trans0.extras.replaceUrl = true ∧
    (envWith entryK0).isCurrentPathEqualTo
      ((envWith entryK0).serialize ((envWith entryK0).merge ⟨8⟩ trans0.initialUrl)) = false ∧
    Effect.historyOf (navigateCall (envWith entryK0)
      ((envWith entryK0).merge ⟨8⟩ trans0.initialUrl) trans0 true) = some HistoryMode.push :=
  ⟨rfl, rfl, c3_routes_recognized_navigate (envWith entryK0) trans0 st0 ⟨8⟩ rfl rfl,
    rfl, rfl, by decide⟩

/-- Claim C4: construction succeeds exactly when the effective
canceledNavigationResolution is computed; with no configuration the effective
value defaults to replace, so construction with no configuration fails with
the error (registering no listener, since listeners are only registered on
the success branch). -/
theorem c4_construction_requires_computed (o : Option RouterConfiguration) :
    ((∃ l, construct o = Except.ok l) ↔
      effectiveCanceledNavigationResolution o = CanceledNavigationResolution.computed) ∧
    effectiveCanceledNavigationResolution none = CanceledNavigationResolution.replace ∧
    (∃ msg, construct none = Except.error msg) := by
  refine ⟨?_, rfl, ⟨_, rfl⟩⟩
  by_cases h : effectiveCanceledNavigationResolution o = CanceledNavigationResolution.computed
  · simp [construct, h]
  · simp [construct, h]

/-- Claim C5 counterexample: a concrete cancellation in which the core issues
a native traverseTo whose metadata is the rollback string, whose intercept
property reads back false, refuting the claim that every native call issued
by the core carries metadata with intercept true. -/
theorem c5_counterexample :
    (cancel (envWith entryK1) trans0 false st0).2 =
      [Effect.traverseTo "k0" NavInfoVal.rollbackStr] ∧
    NavInfoVal.interceptProp NavInfoVal.rollbackStr = false := by
  decide

/-- Claim C5 (amended): the regular navigate issued on RoutesRecognized
carries the metadata object with intercept true, while the rollback
traverseTo and replace navigate issued during cancellation instead carry the
rollback string as metadata, on which the intercept property is absent. -/
theorem c5_core_call_metadata (env : Env) (rawUrl : UrlTree) (t : Navigation) (d : Bool)
    (env2 : Env) (t2 : Navigation) (r : Bool) (st : ManagerState) :
    CoreCallMetadataSpec env rawUrl t d env2 t2 r st := by
  refine ⟨rfl, rfl, ?_⟩
  intro e he
  by_cases h1 : env2.currentEntry.id ≠ st.activeHistoryEntry.id
  · by_cases h2 : env2.currentEntry.key ≠ st.activeHistoryEntry.key
    · rw [cancel_diff_key_eq env2 t2 r st h1 h2] at he
      rcases List.mem_append.mp he with h | h
      · rw [mem_cancelPrefix h]
        left
        rfl
      · simp at h
        rw [h]
        right
        rfl
    · push_neg at h2
      rw [cancel_same_key_eq env2 t2 r st h1 h2] at he
      rcases List.mem_append.mp he with h | h
      · rw [mem_cancelPrefix h]
        left
        rfl
      · simp at h
        rw [h]
        right
        rfl
  · push_neg at h1
    rw [cancel_same_id_eq env2 t2 r st h1] at he
    rw [mem_cancelPrefix he]
    left
    rfl

/-- Claim C5 witness: the amended metadata shape at concrete inputs. -/
theorem c5_core_call_metadata_witness :
    CoreCallMetadataSpec (envWith entryK0) ⟨9⟩ trans0 true
      (envWith entryK1) trans0 false st0 :=
  c5_core_call_metadata (envWith entryK0) ⟨9⟩ trans0 true (envWith entryK1) trans0 false st0

/-- Claim C6 evaluation at the failing input: the cancel procedure tags every
native call of a same key cancellation with the rollback string, the boolean
rollback property reads back false on that string, and therefore after the
synthetic replace navigate and its entry change event the handler leaves the
active history entry unchanged even though the native current entry is now a
fresh entry. -/
theorem c6_rollback_tag_not_recognized :
    ((cancel (envWith entryK0b) trans0 false st0).2 ≠ [] ∧
      ∀ e ∈ (cancel (envWith entryK0b) trans0 false st0).2,
        Effect.navInfo e = some NavInfoVal.rollbackStr) ∧
    NavInfoVal.rollbackProp NavInfoVal.rollbackStr = false ∧
    (handleCurrentEntryChange (envWith entryK0c)
        (handleNavigate { canIntercept := true, info := some NavInfoVal.rollbackStr }
          (cancel (envWith entryK0b) trans0 false st0).1).1).1.activeHistoryEntry =
      st0.activeHistoryEntry ∧
    (envWith entryK0c).currentEntry ≠ st0.activeHistoryEntry := by
  decide

/-- Claim C7: an entry change event with no recorded metadata leaves the whole
manager state unchanged and notifies the non router listeners with the URL
and state payload of the native current entry; when metadata was recorded, no
non router notification is emitted. -/
theorem c7_external_entry_change (env : Env) (st : ManagerState) :
    (st.info = none →
      handleCurrentEntryChange env st =
        (st, [Effect.nonRouterNotify env.currentEntry.url env.currentEntry.state])) ∧
    (∀ v, st.info = some v → (handleCurrentEntryChange env st).2 = []) := by
  constructor
  · intro h
    simp [handleCurrentEntryChange, h]
  · intro v h
    simp only [handleCurrentEntryChange, h]
    cases hv : v.rollbackProp <;> simp [hv]

/-- Claim C7 witness: both cases at concrete states. -/
theorem c7_external_entry_change_witness :
    st0.info = none ∧
    handleCurrentEntryChange (envWith entryK1) st0 =
      (st0, [Effect.nonRouterNotify entryK1.url entryK1.state]) ∧
    stInfoRollback.info = some NavInfoVal.rollbackStr ∧
    (handleCurrentEntryChange (envWith entryK1) stInfoRollback).2 = [] :=
  ⟨rfl, (c7_external_entry_change (envWith entryK1) st0).1 rfl, rfl,
    (c7_external_entry_change (envWith entryK1) stInfoRollback).2 NavInfoVal.rollbackStr rfl⟩

/-- Claim C8: under the deferred URL update strategy the navigate call at
RoutesRecognized requests a deferred commit, no commit occurs between
RoutesRecognized and BeforeActivateRoutes, the interception bridge claims the
navigation with an after transition commit and binds the commitUrl callback
on the transition, and BeforeActivateRoutes then triggers the commit exactly
once. -/
theorem c8_deferred_commit_flow (env : Env) (t : Navigation) (st : ManagerState)
    (fu : UrlTree)
    (hstrat : env.urlUpdateStrategy = UrlUpdateStrategy.deferred)
    (hskip : t.extras.skipLocationChange = false)
    (hfu : t.finalUrl = some fu) :
    DeferredCommitFlowSpec env t st fu := by
  have hrec : recognizedResult env t st =
      (st, [navigateCall env (env.merge fu t.initialUrl) t true]) := by
    simp [recognizedResult, handleRouterEvent, hskip, hfu, hstrat]
  have hbridge : bridgeResult env t st =
      ({ st with info := some (NavInfoVal.obj (navigateInfo t true)) },
        some { t with commitUrlBound := true },
        [Effect.interceptClaim (some FocusScrollBehavior.manual) none true]) := by
    simp [bridgeResult, hrec, handleNavigate, navigateInfo, NavInfoVal.interceptProp,
      NavInfoVal.deferredCommitProp, NavInfoVal.transitionProp, NavInfoVal.focusResetProp,
      NavInfoVal.scrollProp]
  refine ⟨?_, rfl, ?_, ?_, ?_, ?_, ?_⟩
  · rw [hrec]
  · rw [hrec]
    simp [navigateCall]
  · rw [hbridge]
    simp
  · rw [hbridge]
  · rw [hbridge]
  · rw [hbridge]
    simp [handleRouterEvent]

/-- Claim C8 witness: the deferred commit flow at concrete inputs. -/
theorem c8_deferred_commit_flow_witness :
    (envWith entryK0).urlUpdateStrategy = UrlUpdateStrategy.deferred ∧
    trans0.extras.skipLocationChange = false ∧
    trans0.finalUrl = some ⟨8⟩ ∧
    DeferredCommitFlowSpec (envWith entryK0) trans0 st0 ⟨8⟩ :=
  ⟨rfl, rfl, rfl, c8_deferred_commit_flow (envWith entryK0) trans0 st0 ⟨8⟩ rfl rfl rfl⟩

/-- Claim C9: a NavigationSkipped event sets the raw URL tree to the
transition initial URL, leaves the current URL tree, router state, active
history entry and stored memento unchanged, and issues no native call. -/
theorem c9_navigation_skipped_frame (env : Env) (t : Navigation) (st : ManagerState) :
    handleRouterEvent env RouterEvent.navigationSkipped t st =
      ({ st with rawUrlTree := t.initialUrl }, []) ∧
    (handleRouterEvent env RouterEvent.navigationSkipped t st).1.currentUrlTree =
      st.currentUrlTree ∧
    (handleRouterEvent env RouterEvent.navigationSkipped t st).1.routerState =
      st.routerState ∧
    (handleRouterEvent env RouterEvent.navigationSkipped t st).1.activeHistoryEntry =
      st.activeHistoryEntry ∧
    (handleRouterEvent env RouterEvent.navigationSkipped t st).1.stateMemento =
      st.stateMemento ∧
    (handleRouterEvent env RouterEvent.navigationSkipped t st).1.rawUrlTree = t.initialUrl :=
  ⟨rfl, rfl, rfl, rfl, rfl, rfl⟩

/-- Claim C10: a NavigationCancel event whose code is neither GuardRejected
nor NoDataFromResolver is a complete no op (state unchanged, no effect, no
cancel signal), while the two listed codes and NavigationError run the cancel
procedure. -/
theorem c10_cancel_code_filter (env : Env) (t : Navigation) (st : ManagerState)
    (code : NavigationCancellationCode)
    (hg : code ≠ NavigationCancellationCode.guardRejected)
    (hn : code ≠ NavigationCancellationCode.noDataFromResolver) :
    handleRouterEvent env (RouterEvent.navigationCancel code) t st = (st, []) ∧
    handleRouterEvent env
        (RouterEvent.navigationCancel NavigationCancellationCode.guardRejected) t st =
      cancel env t false st ∧
    handleRouterEvent env
        (RouterEvent.navigationCancel NavigationCancellationCode.noDataFromResolver) t st =
      cancel env t false st ∧
    handleRouterEvent env RouterEvent.navigationError t st = cancel env t true st := by
  refine ⟨?_, ?_, ?_, rfl⟩
  · simp [handleRouterEvent, hg, hn]
  · simp [handleRouterEvent]
  · simp [handleRouterEvent]

/-- Claim C10 witness: the Redirect code at concrete inputs. -/
theorem c10_cancel_code_filter_witness :
    NavigationCancellationCode.redirect ≠ NavigationCancellationCode.guardRejected ∧
    NavigationCancellationCode.redirect ≠ NavigationCancellationCode.noDataFromResolver ∧
    (handleRouterEvent (envWith entryK1)
        (RouterEvent.navigationCancel NavigationCancellationCode.redirect) trans0 st0 =
        (st0, []) ∧
      handleRouterEvent (envWith entryK1)
          (RouterEvent.navigationCancel NavigationCancellationCode.guardRejected) trans0 st0 =
        cancel (envWith entryK1) trans0 false st0 ∧
      handleRouterEvent (envWith entryK1)
          (RouterEvent.navigationCancel NavigationCancellationCode.noDataFromResolver) trans0
          st0 =
        cancel (envWith entryK1) trans0 false st0 ∧
      handleRouterEvent (envWith entryK1) RouterEvent.navigationError trans0 st0 =
        cancel (envWith entryK1) trans0 true st0) :=
  ⟨by decide, by decide,
    c10_cancel_code_filter (envWith entryK1) trans0 st0 NavigationCancellationCode.redirect
      (by decide) (by decide)⟩

end NavModel
